import Mathlib

/-!
Verification of the validation-and-routing core of the insurance-claims
agent (`src/agent.py`, class `InsuranceClaimsAgent`) against its
natural-language specification.

Python values flowing through `validate_fields` and `route_claim` are
modelled by the inductive type `PyVal` (JSON-shaped data: null, strings,
numbers as rationals, objects, arrays).  Python operations that can raise
(`.get` on a non-dict receiver, `.lower()` on a non-string, ordering
comparisons on non-numbers) are modelled in the `Except String` monad, so
an exception in the source corresponds to an `Except.error` here.
-/

/-- A Python/JSON value as it appears in the structured records the agent
processes.  Numbers are modelled as rationals (covering Python ints and the
decimal floats appearing in the schema). -/
inductive PyVal where
  | null : PyVal
  | str : String → PyVal
  | num : Rat → PyVal
  | dict : List (String × PyVal) → PyVal
  | arr : List PyVal → PyVal

/-- Python truthiness (`bool(v)`): `None`, empty strings, zero and empty
collections are falsy, everything else is truthy. -/
def PyVal.truthy : PyVal → Bool
  | .null => false
  | .str s => !(s == "")
  | .num q => !(q == 0)
  | .dict kvs => !kvs.isEmpty
  | .arr xs => !xs.isEmpty

/-- Python `receiver.get(key, default)`: on a dict, the stored value if the
key is present (even if the stored value is `None`), otherwise the default;
on any non-dict receiver (in particular `None`) it raises
`AttributeError`. -/
def PyVal.getD : PyVal → String → PyVal → Except String PyVal
  | .dict kvs, k, dflt => .ok ((kvs.lookup k).getD dflt)
  | _, _, _ => .error "AttributeError: object has no attribute get"

/-- Python `x or y`: `x` if truthy, else `y`. -/
def pyOr (a b : PyVal) : PyVal := if a.truthy then a else b

/-- Lower-case a string character by character (Python `str.lower()` on
the ASCII text of these records). -/
def strLower (s : String) : String :=
  String.mk (s.data.map Char.toLower)

/-- Python `s.lower()`: succeeds only on strings; on any other value
(in particular `None`) it raises `AttributeError`. -/
def pyLower : PyVal → Except String String
  | .str s => .ok (strLower s)
  | _ => .error "AttributeError: object has no attribute lower"

/-- `matchesAt hay needle`: the needle is an initial segment of the hay. -/
def matchesAt : List Char → List Char → Bool
  | _, [] => true
  | [], _ :: _ => false
  | h :: hs, n :: ns => h == n && matchesAt hs ns

/-- Substring test on the underlying character lists (Python `needle in hay`
for strings). -/
def containsSub (needle : List Char) : List Char → Bool
  | [] => matchesAt [] needle
  | c :: hs => matchesAt (c :: hs) needle || containsSub needle hs

/-- Python `needle in hay` for strings: substring containment. -/
def strContains (hay needle : String) : Bool :=
  containsSub needle.data hay.data

/-- The agent's fraud keyword vocabulary, `self.fraud_keywords` in
`agent.py`, in its fixed order. -/
def fraud_keywords : List String :=
  ["fraud", "staged", "inconsistent", "suspicious", "fake"]

/-- The agent's mandatory-field vocabulary, `self.mandatory_fields` in
`agent.py`, which is also the fixed check order of `validate_fields`. -/
def mandatory_fields : List String :=
  ["policyNumber", "policyholderName", "incidentDate",
   "incidentLocation", "description", "claimantName",
   "assetType", "claimType"]

/-- Group the (reversed) digit list of an integer part in threes,
inserting the thousands separators of Python format spec `,`. -/
def commaGroup : List Char → List Char
  | a :: b :: c :: d :: rest => a :: b :: c :: ',' :: commaGroup (d :: rest)
  | l => l

/-- Round a rational to the nearest integer, ties to even (the rounding
used by Python float formatting on exactly representable values). -/
def roundHalfEven (q : Rat) : Int :=
  let f := q.floor
  let frac := q - f
  if frac < 1 / 2 then f
  else if 1 / 2 < frac then f + 1
  else if f % 2 = 0 then f else f + 1

/-- Python `"{:,.2f}".format(q)`: two decimal places with thousands
separators (agrees with Python on every amount that is exact in cents,
which is what the schema's currency-as-number rule produces). -/
def formatCurrency (q : Rat) : String :=
  let c := roundHalfEven (q * 100)
  let sign := if c < 0 then "-" else ""
  let n := c.natAbs
  let intPart := String.mk (commaGroup (toString (n / 100)).data.reverse).reverse
  let cents := n % 100
  let centsStr := if cents < 10 then "0" ++ toString cents else toString cents
  sign ++ intPart ++ "." ++ centsStr

/-- The dictionary returned by `route_claim` in `agent.py`. -/
structure RoutingDecision where
  recommendedRoute : String
  reasoning : String
  missingFields : List String
  fraudIndicators : List String
  estimatedDamage : PyVal

/-- `extracted_data.get('incidentInformation', \x7b\x7d).get('description', '').lower()`
(line 158 of `agent.py`). -/
def descriptionOf (extracted_data : PyVal) : Except String String := do
  let incident ← extracted_data.getD "incidentInformation" (.dict [])
  let d ← incident.getD "description" (.str "")
  pyLower d

/-- `extracted_data.get('otherMandatoryFields', \x7b\x7d).get('claimType', '').lower()`
(line 159 of `agent.py`). -/
def claimTypeOf (extracted_data : PyVal) : Except String String := do
  let other ← extracted_data.getD "otherMandatoryFields" (.dict [])
  let c ← other.getD "claimType" (.str "")
  pyLower c

/-- `extracted_data.get('assetDetails', \x7b\x7d).get('estimatedDamage')`
(line 160 of `agent.py`). -/
def estimatedDamageOf (extracted_data : PyVal) : Except String PyVal := do
  let asset ← extracted_data.getD "assetDetails" (.dict [])
  asset.getD "estimatedDamage" .null

/-- `extracted_data.get('otherMandatoryFields', \x7b\x7d).get('initialEstimate')`
(line 161 of `agent.py`). -/
def initialEstimateOf (extracted_data : PyVal) : Except String PyVal := do
  let other ← extracted_data.getD "otherMandatoryFields" (.dict [])
  other.getD "initialEstimate" .null

/-- The body of `route_claim` after its four derived inputs have been
computed: the `or`-chain fallback for the damage amount, the fraud-keyword
scan, and the prioritized if/elif decision ladder (lines 163-192 of
`agent.py`).  The ordering comparison `damage_amount < 25000` is reached
only when `damage_amount` is truthy, and raises `TypeError` if the value is
not a number. -/
def routeCore (description claim_type : String) (estimated_damage initial_estimate : PyVal)
    (missing_fields : List String) : Except String RoutingDecision :=
  let damage_amount := pyOr (pyOr estimated_damage initial_estimate) (.num 0)
  let fraud_indicators := fraud_keywords.filter (fun w => strContains description w)
  if fraud_indicators ≠ [] then
    .ok ⟨"investigation",
      "Fraud indicators detected: " ++ String.intercalate ", " fraud_indicators,
      missing_fields, fraud_indicators, damage_amount⟩
  else if missing_fields ≠ [] then
    .ok ⟨"manual-review",
      "Missing mandatory fields: " ++ String.intercalate ", " missing_fields,
      missing_fields, fraud_indicators, damage_amount⟩
  else if strContains claim_type "injury" then
    .ok ⟨"specialist-queue",
      "Claim involves injury - requires specialist review",
      missing_fields, fraud_indicators, damage_amount⟩
  else if damage_amount.truthy then
    match damage_amount with
    | .num n =>
      if n < 25000 then
        .ok ⟨"fast-track",
          "Low damage amount ($" ++ formatCurrency n ++ ") with all required fields present",
          missing_fields, fraud_indicators, damage_amount⟩
      else
        .ok ⟨"manual-review",
          "Standard review required - damage exceeds fast-track threshold or estimate unavailable",
          missing_fields, fraud_indicators, damage_amount⟩
    | _ => .error "TypeError: unsupported ordering comparison"
  else
    .ok ⟨"manual-review",
      "Standard review required - damage exceeds fast-track threshold or estimate unavailable",
      missing_fields, fraud_indicators, damage_amount⟩

/-- `InsuranceClaimsAgent.route_claim` (lines 155-192 of `agent.py`): the
four derived inputs are computed in source order (each can raise), then the
decision ladder runs. -/
def route_claim (extracted_data : PyVal) (missing_fields : List String) :
    Except String RoutingDecision := do
  let description ← descriptionOf extracted_data
  let claim_type ← claimTypeOf extracted_data
  let estimated_damage ← estimatedDamageOf extracted_data
  let initial_estimate ← initialEstimateOf extracted_data
  routeCore description claim_type estimated_damage initial_estimate missing_fields

/-- `InsuranceClaimsAgent.validate_fields` (lines 127-153 of `agent.py`):
each mandatory field is fetched along its source path with `.get` chains
(each hop can raise on a null parent) and appended to the result when its
value is falsy.  The checks run in the fixed source order. -/
def validate_fields (extracted_data : PyVal) : Except String (List String) := do
  let pn ← (← extracted_data.getD "policyInformation" (.dict [])).getD "policyNumber" .null
  let phn ← (← extracted_data.getD "policyInformation" (.dict [])).getD "policyholderName" .null
  let incident ← extracted_data.getD "incidentInformation" (.dict [])
  let idate ← incident.getD "date" .null
  let icity ← (← incident.getD "location" (.dict [])).getD "city" .null
  let idesc ← incident.getD "description" .null
  let cname ← (← (← extracted_data.getD "involvedParties" (.dict [])).getD "claimant" (.dict [])).getD "name" .null
  let atype ← (← extracted_data.getD "assetDetails" (.dict [])).getD "assetType" .null
  let ctype ← (← extracted_data.getD "otherMandatoryFields" (.dict [])).getD "claimType" .null
  return (if pn.truthy then [] else ["policyNumber"]) ++
    (if phn.truthy then [] else ["policyholderName"]) ++
    (if idate.truthy then [] else ["incidentDate"]) ++
    (if icity.truthy then [] else ["incidentLocation"]) ++
    (if idesc.truthy then [] else ["description"]) ++
    (if cname.truthy then [] else ["claimantName"]) ++
    (if atype.truthy then [] else ["assetType"]) ++
    (if ctype.truthy then [] else ["claimType"])

/-! ## Well-formedness of structured claim records

The extraction schema (the JSON template in `extract_fields`, restated as
the `StructuredClaimRecord` data model of the spec): a nested mapping with
fixed keys, every field possibly absent or null, string leaves except the
two currency fields `estimatedDamage` and `initialEstimate`, which are
numbers, and `thirdParties`, which is an array. -/

/-- The key, when present in the dictionary, satisfies the predicate. -/
def fieldOk (kvs : List (String × PyVal)) (k : String) (p : PyVal → Bool) : Bool :=
  match kvs.lookup k with
  | some v => p v
  | none => true

/-- String or null (the schema's `"string or null"` leaves). -/
def isStrOrNull : PyVal → Bool
  | .null => true
  | .str _ => true
  | _ => false

/-- Number or null (the schema's `"number or null"` leaves). -/
def isNumOrNull : PyVal → Bool
  | .null => true
  | .num _ => true
  | _ => false

/-- A sub-mapping of the schema: either the null marker, or a dictionary
whose listed keys, when present, satisfy their predicates. -/
def subMap (fields : List (String × (PyVal → Bool))) : PyVal → Bool
  | .null => true
  | .dict kvs => fields.all (fun f => fieldOk kvs f.1 f.2)
  | _ => false

/-- Schema shape of `incidentInformation.location`. -/
def wfLocation : PyVal → Bool :=
  subMap [("street", isStrOrNull), ("city", isStrOrNull),
          ("state", isStrOrNull), ("zip", isStrOrNull)]

/-- Schema shape of `policyInformation`. -/
def wfPolicy : PyVal → Bool :=
  subMap [("policyNumber", isStrOrNull), ("policyholderName", isStrOrNull),
          ("effectiveDates", isStrOrNull)]

/-- Schema shape of `incidentInformation`. -/
def wfIncident : PyVal → Bool :=
  subMap [("date", isStrOrNull), ("time", isStrOrNull),
          ("location", wfLocation), ("description", isStrOrNull)]

/-- Schema shape of `involvedParties.claimant`. -/
def wfClaimant : PyVal → Bool :=
  subMap [("name", isStrOrNull), ("phone", isStrOrNull), ("email", isStrOrNull)]

/-- An array value (the schema's `thirdParties` sequence). -/
def isArr : PyVal → Bool
  | .arr _ => true
  | _ => false

/-- Schema shape of `involvedParties`. -/
def wfParties : PyVal → Bool :=
  subMap [("claimant", wfClaimant), ("thirdParties", isArr)]

/-- Schema shape of `assetDetails.vehicleInfo`. -/
def wfVehicleInfo : PyVal → Bool :=
  subMap [("year", isStrOrNull), ("make", isStrOrNull), ("model", isStrOrNull)]

/-- Schema shape of `assetDetails`. -/
def wfAsset : PyVal → Bool :=
  subMap [("assetType", isStrOrNull), ("assetId", isStrOrNull),
          ("vehicleInfo", wfVehicleInfo), ("estimatedDamage", isNumOrNull)]

/-- Schema shape of `otherMandatoryFields`. -/
def wfOther : PyVal → Bool :=
  subMap [("claimType", isStrOrNull), ("attachments", isStrOrNull),
          ("initialEstimate", isNumOrNull)]

/-- A well-formed (possibly sparse) `StructuredClaimRecord`: a mapping in
which every section, when present, is null or a schema-shaped sub-mapping;
any field may be absent, and absence may be represented by the null
marker. -/
def wellFormed : PyVal → Bool
  | .dict kvs =>
    fieldOk kvs "policyInformation" wfPolicy &&
    fieldOk kvs "incidentInformation" wfIncident &&
    fieldOk kvs "involvedParties" wfParties &&
    fieldOk kvs "assetDetails" wfAsset &&
    fieldOk kvs "otherMandatoryFields" wfOther
  | _ => false

/-- The key is not present with the null value (it may be absent, or
present with a non-null value). -/
def fieldNotNull (kvs : List (String × PyVal)) (k : String) : Bool :=
  match kvs.lookup k with
  | some .null => false
  | _ => true

/-- The nested key `k` under the section `key`, when that section is
present as a mapping, is not present-with-null. -/
def innerNotNull (kvs : List (String × PyVal)) (key k : String) : Bool :=
  match kvs.lookup key with
  | some (.dict m) => fieldNotNull m k
  | _ => true

/-- No `.get` chain of `validate_fields` or `route_claim` hits a null
receiver: the five top-level sections, `incident.location` and
`parties.claimant` are never present-with-null (they may be absent). -/
def noNullParents : PyVal → Bool
  | .dict kvs =>
    fieldNotNull kvs "policyInformation" &&
    fieldNotNull kvs "incidentInformation" &&
    fieldNotNull kvs "involvedParties" &&
    fieldNotNull kvs "assetDetails" &&
    fieldNotNull kvs "otherMandatoryFields" &&
    innerNotNull kvs "incidentInformation" "location" &&
    innerNotNull kvs "involvedParties" "claimant"
  | _ => false

/-- The two leaves `route_claim` calls `.lower()` on are never
present-with-null. -/
def lowerLeavesNotNull : PyVal → Bool
  | .dict kvs =>
    innerNotNull kvs "incidentInformation" "description" &&
    innerNotNull kvs "otherMandatoryFields" "claimType"
  | _ => false

/-- No `.get` chain of `validate_fields` or `route_claim` hits a null
receiver and no `.lower()` of `route_claim` hits a null value. -/
def noNullAccess (r : PyVal) : Bool :=
  noNullParents r && lowerLeavesNotNull r

/-! ## Spec-side description of the validator output -/

/-- Safe lookup of a parent mapping with the default-empty-mapping
semantics the spec describes: an absent or non-mapping parent behaves like
an empty mapping, so every child under it is absent. -/
def safeParent (v : PyVal) (k : String) : PyVal :=
  match v with
  | .dict kvs => (kvs.lookup k).getD (.dict [])
  | _ => .dict []

/-- Safe lookup of a leaf: absent leaves (and leaves under a non-mapping
parent) read as the null marker. -/
def safeLeaf (v : PyVal) (k : String) : PyVal :=
  match v with
  | .dict kvs => (kvs.lookup k).getD .null
  | _ => .null

/-- The source value behind each mandatory-field token, along the paths
named in the spec (section 4.1), read with safe nested lookup. -/
def fieldValue (r : PyVal) : String → PyVal
  | "policyNumber" => safeLeaf (safeParent r "policyInformation") "policyNumber"
  | "policyholderName" => safeLeaf (safeParent r "policyInformation") "policyholderName"
  | "incidentDate" => safeLeaf (safeParent r "incidentInformation") "date"
  | "incidentLocation" => safeLeaf (safeParent (safeParent r "incidentInformation") "location") "city"
  | "description" => safeLeaf (safeParent r "incidentInformation") "description"
  | "claimantName" => safeLeaf (safeParent (safeParent r "involvedParties") "claimant") "name"
  | "assetType" => safeLeaf (safeParent r "assetDetails") "assetType"
  | "claimType" => safeLeaf (safeParent r "otherMandatoryFields") "claimType"
  | _ => .null

/-- Modelled from the spec: a value is "missing" if it is "absent, null, or
an empty/whitespace string" (section 4.1; the claim's original missingness
notion). -/
def specMissingOrig : PyVal → Bool
  | .null => true
  | .str s => s.data.all Char.isWhitespace
  | _ => false

/-- The missingness notion the code actually implements on schema leaves:
absent, null, or the empty string (Python falsiness; a whitespace-only
string is truthy and therefore counts as present). -/
def codeMissing : PyVal → Bool
  | .null => true
  | .str s => s == ""
  | _ => false

/-- The validator output described by the spec's original wording: the
fixed-vocabulary tokens whose source value is absent, null or
empty/whitespace, in the fixed check order. -/
def missingSpecOrig (r : PyVal) : List String :=
  mandatory_fields.filter (fun f => specMissingOrig (fieldValue r f))

/-- The validator output with the corrected missingness notion: the
fixed-vocabulary tokens whose source value is absent, null or the empty
string, in the fixed check order. -/
def missingSpec (r : PyVal) : List String :=
  mandatory_fields.filter (fun f => codeMissing (fieldValue r f))

/-! ## Batch tally (`batch_process.py`) -/

/-- The statically initialized route tally of `BatchProcessor.stats`
(`batch_process.py`, constructor): all four route names mapped to zero. -/
def initialRoutes : List (String × Nat) :=
  [("fast-track", 0), ("manual-review", 0), ("investigation", 0), ("specialist-queue", 0)]

/-- Python `self.stats["routes"][k] += 1`: raises `KeyError` when the key
is absent, otherwise increments its count. -/
def bumpRoute (routes : List (String × Nat)) (k : String) :
    Except String (List (String × Nat)) :=
  if (routes.lookup k).isSome then
    .ok (routes.map (fun p => if p.1 = k then (p.1, p.2 + 1) else p))
  else
    .error "KeyError"

/-! ## Concrete records for witnesses and counterexamples -/

/-- A complete structured record in the shape of the extraction schema,
parameterized by the description, the claim type and the two damage
estimates (the complete fixture of `test/test_agent.py` with those four
values substituted). -/
def mkRecord (desc ct ed ie : PyVal) : PyVal :=
  .dict
    [("policyInformation", .dict
        [("policyNumber", .str "AUTO-12345"),
         ("policyholderName", .str "John Doe"),
         ("effectiveDates", .str "01/01/2025 - 01/01/2026")]),
     ("incidentInformation", .dict
        [("date", .str "01/10/2025"),
         ("time", .str "2:30 PM"),
         ("location", .dict
            [("street", .str "123 Main St"), ("city", .str "Los Angeles"),
             ("state", .str "CA"), ("zip", .str "90001")]),
         ("description", desc)]),
     ("involvedParties", .dict
        [("claimant", .dict
            [("name", .str "John Doe"), ("phone", .str "555-1234"),
             ("email", .str "john@example.com")]),
         ("thirdParties", .arr [])]),
     ("assetDetails", .dict
        [("assetType", .str "vehicle"),
         ("assetId", .str "1HGCM82633A123456"),
         ("vehicleInfo", .dict
            [("year", .str "2023"), ("make", .str "Honda"), ("model", .str "Accord")]),
         ("estimatedDamage", ed)]),
     ("otherMandatoryFields", .dict
        [("claimType", ct),
         ("attachments", .str "photos.zip"),
         ("initialEstimate", ie)])]

/-- A well-formed sparse record in which absence is represented by the
null marker: the `policyInformation` section is null and the description
leaf is null.  `validate_fields` crashes on the former, `route_claim` on
the latter. -/
def recNullMarkers : PyVal :=
  .dict [("policyInformation", .null),
         ("incidentInformation", .dict [("description", .null)])]

/-- The complete fixture of `test/test_agent.py`. -/
def recComplete : PyVal :=
  mkRecord (.str "Rear-end collision at intersection") (.str "auto") (.num 15000) (.num 15000)

/-- A complete record whose two damage estimates are both null, so the
resolved damage amount is the fallback 0. -/
def recZeroDamage : PyVal :=
  mkRecord (.str "Rear-end collision at intersection") (.str "auto") .null .null

/-- A complete record with `estimatedDamage` present and equal to 0 and
`initialEstimate` 5000. -/
def recZeroEstimate : PyVal :=
  mkRecord (.str "Rear-end collision at intersection") (.str "auto") (.num 0) (.num 5000)

/-- A sparse record whose `policyNumber` is a whitespace-only string. -/
def recWhitespace : PyVal :=
  .dict [("policyInformation", .dict [("policyNumber", .str " ")])]

/-- A complete record whose description contains fraud keywords. -/
def recFraud : PyVal :=
  mkRecord (.str "This seems like a staged accident with inconsistent details")
    (.str "auto") (.num 15000) (.num 15000)

/-- A complete injury claim with a fast-track-sized damage amount. -/
def recInjury : PyVal :=
  mkRecord (.str "Minor collision") (.str "injury") (.num 22000) .null

/-- A complete record with damage just below the 25000 threshold. -/
def recBelowThreshold : PyVal :=
  mkRecord (.str "Minor collision") (.str "auto") (.num (mkRat 2499999 100)) .null

/-- A complete record with damage exactly at the 25000 threshold. -/
def recAtThreshold : PyVal :=
  mkRecord (.str "Minor collision") (.str "auto") (.num 25000) .null

/-- A complete record with a negative damage estimate. -/
def recNegative : PyVal :=
  mkRecord (.str "Minor collision") (.str "auto") (.num (-500)) .null

/-! ## General lemmas about the embedding -/

theorem ok_bind {α β : Type} {a : α} {f : α → Except String β} :
    (Except.ok a >>= f) = f a := rfl

theorem error_bind {α β : Type} {e : String} {f : α → Except String β} :
    ((Except.error e : Except String α) >>= f) = .error e := rfl

theorem except_bind_ok {α β : Type} {e : Except String α} {f : α → Except String β} {b : β} :
    (e >>= f) = .ok b ↔ ∃ a, e = .ok a ∧ f a = .ok b := by
  cases e <;> simp [ok_bind, error_bind]

/-- A schema sub-mapping is the null marker or a dictionary. -/
theorem subMap_shape {fs : List (String × (PyVal → Bool))} {v : PyVal}
    (h : subMap fs v = true) : v = .null ∨ ∃ kvs, v = .dict kvs := by
  cases v <;> simp_all [subMap]

/-- Every listed field of a schema sub-mapping dictionary is fine. -/
theorem subMap_field {fs : List (String × (PyVal → Bool))} {kvs : List (String × PyVal)}
    {k : String} {p : PyVal → Bool}
    (h : subMap fs (.dict kvs) = true) (hmem : (k, p) ∈ fs) :
    fieldOk kvs k p = true := by
  simp only [subMap, List.all_eq_true] at h
  exact h (k, p) hmem

/-- A schema section that is present only as a mapping (never null) reads,
with the empty-mapping default, as a dictionary that still satisfies the
schema shape. -/
theorem parent_dict {kvs : List (String × PyVal)} {k : String}
    {fs : List (String × (PyVal → Bool))}
    (hp : fieldOk kvs k (subMap fs) = true) (hn : fieldNotNull kvs k = true) :
    ∃ m, (kvs.lookup k).getD (.dict []) = .dict m ∧ subMap fs (.dict m) = true := by
  unfold fieldOk at hp
  unfold fieldNotNull at hn
  cases h : kvs.lookup k with
  | none =>
    refine ⟨[], rfl, ?_⟩
    simp [subMap, fieldOk, List.lookup]
  | some v =>
    rw [h] at hp hn
    rcases subMap_shape hp with rfl | ⟨m, rfl⟩
    · simp at hn
    · exact ⟨m, rfl, hp⟩

/-- A leaf whose schema predicate tolerates null reads, with the null
default, as a value satisfying that predicate. -/
theorem leaf_shape {kvs : List (String × PyVal)} {k : String} {p : PyVal → Bool}
    (hp : fieldOk kvs k p = true) (hnull : p .null = true) :
    p ((kvs.lookup k).getD .null) = true := by
  unfold fieldOk at hp
  cases h : kvs.lookup k with
  | none => simpa using hnull
  | some v => rw [h] at hp; simpa using hp

/-- A string-or-null leaf that is never present-with-null reads, with the
empty-string default, as a string. -/
theorem leaf_str {kvs : List (String × PyVal)} {k : String}
    (hp : fieldOk kvs k isStrOrNull = true) (hn : fieldNotNull kvs k = true) :
    ∃ s, (kvs.lookup k).getD (.str "") = .str s := by
  unfold fieldOk at hp
  unfold fieldNotNull at hn
  cases h : kvs.lookup k with
  | none => exact ⟨"", rfl⟩
  | some v =>
    rw [h] at hp hn
    cases v <;> simp_all [isStrOrNull]

/-- Transfer an `innerNotNull` fact to the dictionary a section reads as. -/
theorem inner_notNull {kvs m : List (String × PyVal)} {key k : String}
    (h : innerNotNull kvs key k = true)
    (e : (kvs.lookup key).getD (.dict []) = .dict m) :
    fieldNotNull m k = true := by
  unfold innerNotNull at h
  cases hh : kvs.lookup key with
  | none =>
    rw [hh] at e
    injection e with e
    subst e
    rfl
  | some v =>
    rw [hh] at h e
    simp only [Option.getD] at e
    subst e
    exact h

theorem codeMissing_eq_not_truthy {v : PyVal} (h : isStrOrNull v = true) :
    codeMissing v = !v.truthy := by
  cases v <;> simp_all [codeMissing, PyVal.truthy, isStrOrNull]

theorem chunk_eq {b : Bool} {x : String} {l : List String} :
    (if (!b) = true then x :: l else l) = (if b = true then [] else [x]) ++ l := by
  cases b <;> simp

theorem validate_fields_spec {r : PyVal} (hwf : wellFormed r = true)
    (hnp : noNullParents r = true) :
    validate_fields r = .ok (missingSpec r) := by
  cases r with
  | null => simp [wellFormed] at hwf
  | str s => simp [wellFormed] at hwf
  | num q => simp [wellFormed] at hwf
  | arr a => simp [wellFormed] at hwf
  | dict kvs =>
    simp only [wellFormed, Bool.and_eq_true] at hwf
    obtain ⟨⟨⟨⟨hP, hI⟩, hPa⟩, hA⟩, hO⟩ := hwf
    simp only [noNullParents, Bool.and_eq_true] at hnp
    obtain ⟨⟨⟨⟨⟨⟨nP, nI⟩, nPa⟩, nA⟩, nO⟩, nLoc⟩, nCl⟩ := hnp
    obtain ⟨pkvs, eP, sP⟩ := parent_dict (by simpa only [wfPolicy] using hP) nP
    obtain ⟨ikvs, eI, sI⟩ := parent_dict (by simpa only [wfIncident] using hI) nI
    obtain ⟨vkvs, ePa, sPa⟩ := parent_dict (by simpa only [wfParties] using hPa) nPa
    obtain ⟨akvs, eA, sA⟩ := parent_dict (by simpa only [wfAsset] using hA) nA
    obtain ⟨okvs, eO, sO⟩ := parent_dict (by simpa only [wfOther] using hO) nO
    have fLoc : fieldOk ikvs "location" wfLocation = true := subMap_field sI (by simp)
    obtain ⟨lkvs, eL, sL⟩ := parent_dict (by simpa only [wfLocation] using fLoc) (inner_notNull nLoc eI)
    have fCl : fieldOk vkvs "claimant" wfClaimant = true := subMap_field sPa (by simp)
    obtain ⟨ckvs, eC, sC⟩ := parent_dict (by simpa only [wfClaimant] using fCl) (inner_notNull nCl ePa)
    have f1 : fieldOk pkvs "policyNumber" isStrOrNull = true := subMap_field sP (by simp)
    have f2 : fieldOk pkvs "policyholderName" isStrOrNull = true := subMap_field sP (by simp)
    have f3 : fieldOk ikvs "date" isStrOrNull = true := subMap_field sI (by simp)
    have f4 : fieldOk lkvs "city" isStrOrNull = true := subMap_field sL (by simp)
    have f5 : fieldOk ikvs "description" isStrOrNull = true := subMap_field sI (by simp)
    have f6 : fieldOk ckvs "name" isStrOrNull = true := subMap_field sC (by simp)
    have f7 : fieldOk akvs "assetType" isStrOrNull = true := subMap_field sA (by simp)
    have f8 : fieldOk okvs "claimType" isStrOrNull = true := subMap_field sO (by simp)
    have cm1 := codeMissing_eq_not_truthy (leaf_shape f1 rfl)
    have cm2 := codeMissing_eq_not_truthy (leaf_shape f2 rfl)
    have cm3 := codeMissing_eq_not_truthy (leaf_shape f3 rfl)
    have cm4 := codeMissing_eq_not_truthy (leaf_shape f4 rfl)
    have cm5 := codeMissing_eq_not_truthy (leaf_shape f5 rfl)
    have cm6 := codeMissing_eq_not_truthy (leaf_shape f6 rfl)
    have cm7 := codeMissing_eq_not_truthy (leaf_shape f7 rfl)
    have cm8 := codeMissing_eq_not_truthy (leaf_shape f8 rfl)
    simp only [validate_fields, missingSpec, mandatory_fields, fieldValue, safeParent, safeLeaf,
      PyVal.getD, ok_bind, eP, eI, eL, ePa, eC, eA, eO,
      List.filter_cons, List.filter_nil,
      cm1, cm2, cm3, cm4, cm5, cm6, cm7, cm8,
      chunk_eq, List.append_nil, List.append_assoc]
    rfl

theorem map_ok {α β : Type} {f : α → β} {a : α} :
    Except.map f (Except.ok a : Except String α) = .ok (f a) := rfl

/-- A number-or-null value is the null marker or a number. -/
theorem isNumOrNull_shape {v : PyVal} (h : isNumOrNull v = true) :
    v = .null ∨ ∃ q : Rat, v = .num q := by
  cases v <;> simp_all [isNumOrNull]

/-- The `or`-chain damage fallback always yields a number when both
estimates are schema-shaped (number or null). -/
theorem pyOr_num {ed ie : PyVal} (hed : isNumOrNull ed = true) (hie : isNumOrNull ie = true) :
    ∃ q : Rat, pyOr (pyOr ed ie) (.num 0) = .num q := by
  rcases isNumOrNull_shape hed with rfl | ⟨a, rfl⟩ <;>
    rcases isNumOrNull_shape hie with rfl | ⟨b, rfl⟩ <;>
    simp [pyOr, PyVal.truthy] <;>
    split_ifs <;>
    simp_all

/-- The decision ladder never raises when both estimates are number or
null: the only error branch needs a truthy non-numeric damage amount. -/
theorem routeCore_isOk {desc ct : String} {ed ie : PyVal} {ms : List String}
    (hed : isNumOrNull ed = true) (hie : isNumOrNull ie = true) :
    (routeCore desc ct ed ie ms).isOk = true := by
  obtain ⟨q, hq⟩ := pyOr_num hed hie
  simp only [routeCore, hq]
  split_ifs <;> simp [Except.isOk, Except.toBool]

/-- Once the four derived inputs are known, `route_claim` is the decision
ladder on them. -/
theorem route_claim_eq {r : PyVal} {ms : List String} {desc ct : String} {ed ie : PyVal}
    (h1 : descriptionOf r = .ok desc) (h2 : claimTypeOf r = .ok ct)
    (h3 : estimatedDamageOf r = .ok ed) (h4 : initialEstimateOf r = .ok ie) :
    route_claim r ms = routeCore desc ct ed ie ms := by
  simp [route_claim, h1, h2, h3, h4, ok_bind]

/-- Inversion: a successful `route_claim` call factors through successful
derived-input computations and a successful ladder run. -/
theorem route_claim_ok_inv {r : PyVal} {ms : List String} {d : RoutingDecision}
    (h : route_claim r ms = .ok d) :
    ∃ desc ct ed ie, descriptionOf r = .ok desc ∧ claimTypeOf r = .ok ct ∧
      estimatedDamageOf r = .ok ed ∧ initialEstimateOf r = .ok ie ∧
      routeCore desc ct ed ie ms = .ok d := by
  simp only [route_claim, except_bind_ok] at h
  obtain ⟨desc, h1, ct, h2, ed, h3, ie, h4, h5⟩ := h
  exact ⟨desc, ct, ed, ie, h1, h2, h3, h4, h5⟩

/-- Totality of `route_claim` on well-formed records with no null parent
sections and no null `description`/`claimType`. -/
theorem route_claim_total {r : PyVal} (hwf : wellFormed r = true)
    (hnn : noNullAccess r = true) (ms : List String) :
    (route_claim r ms).isOk = true := by
  simp only [noNullAccess, Bool.and_eq_true] at hnn
  obtain ⟨hnp, hll⟩ := hnn
  cases r with
  | null => simp [wellFormed] at hwf
  | str s => simp [wellFormed] at hwf
  | num q => simp [wellFormed] at hwf
  | arr a => simp [wellFormed] at hwf
  | dict kvs =>
    simp only [wellFormed, Bool.and_eq_true] at hwf
    obtain ⟨⟨⟨⟨hP, hI⟩, hPa⟩, hA⟩, hO⟩ := hwf
    simp only [noNullParents, Bool.and_eq_true] at hnp
    obtain ⟨⟨⟨⟨⟨⟨nP, nI⟩, nPa⟩, nA⟩, nO⟩, nLoc⟩, nCl⟩ := hnp
    simp only [lowerLeavesNotNull, Bool.and_eq_true] at hll
    obtain ⟨nDesc, nCt⟩ := hll
    obtain ⟨ikvs, eI, sI⟩ := parent_dict (by simpa only [wfIncident] using hI) nI
    obtain ⟨akvs, eA, sA⟩ := parent_dict (by simpa only [wfAsset] using hA) nA
    obtain ⟨okvs, eO, sO⟩ := parent_dict (by simpa only [wfOther] using hO) nO
    have fDesc : fieldOk ikvs "description" isStrOrNull = true := subMap_field sI (by simp)
    have fCt : fieldOk okvs "claimType" isStrOrNull = true := subMap_field sO (by simp)
    obtain ⟨ds, eDs⟩ := leaf_str fDesc (inner_notNull nDesc eI)
    obtain ⟨cs, eCs⟩ := leaf_str fCt (inner_notNull nCt eO)
    have hED : isNumOrNull ((akvs.lookup "estimatedDamage").getD .null) = true :=
      leaf_shape (subMap_field sA (by simp)) rfl
    have hIE : isNumOrNull ((okvs.lookup "initialEstimate").getD .null) = true :=
      leaf_shape (subMap_field sO (by simp)) rfl
    have h1 : descriptionOf (.dict kvs) = .ok (strLower ds) := by
      simp [descriptionOf, PyVal.getD, ok_bind, eI, eDs, pyLower]
    have h2 : claimTypeOf (.dict kvs) = .ok (strLower cs) := by
      simp [claimTypeOf, PyVal.getD, ok_bind, eO, eCs, pyLower]
    have h3 : estimatedDamageOf (.dict kvs) = .ok ((akvs.lookup "estimatedDamage").getD .null) := by
      simp [estimatedDamageOf, PyVal.getD, ok_bind, eA]
    have h4 : initialEstimateOf (.dict kvs) = .ok ((okvs.lookup "initialEstimate").getD .null) := by
      simp [initialEstimateOf, PyVal.getD, ok_bind, eO]
    rw [route_claim_eq h1 h2 h3 h4]
    exact routeCore_isOk hED hIE

/-- All success branches of the decision ladder carry the same
`missingFields`, `fraudIndicators` and `estimatedDamage`, and one of the
four fixed routes. -/
theorem routeCore_fields {desc ct : String} {ed ie : PyVal} {ms : List String}
    {d : RoutingDecision} (h : routeCore desc ct ed ie ms = .ok d) :
    d.missingFields = ms ∧
    d.fraudIndicators = fraud_keywords.filter (fun w => strContains desc w) ∧
    d.estimatedDamage = pyOr (pyOr ed ie) (.num 0) ∧
    d.recommendedRoute ∈ ["fast-track", "manual-review", "specialist-queue", "investigation"] := by
  simp only [routeCore] at h
  repeat' split at h
  all_goals first
    | (injection h with h; subst h; refine ⟨rfl, rfl, rfl, by simp⟩)
    | exact absurd h (by simp)

/-- A keyword hit makes the scanned indicator list non-empty. -/
theorem filter_ne_nil_of_exists {desc : String}
    (h : ∃ w ∈ fraud_keywords, strContains desc w = true) :
    fraud_keywords.filter (fun w => strContains desc w) ≠ [] := by
  obtain ⟨w, hw, hc⟩ := h
  exact List.ne_nil_of_mem (List.mem_filter.mpr ⟨hw, hc⟩)

/-! ## The claims -/

/-- C1, counterexample: `recNullMarkers` is a well-formed sparse record
(absence represented by the null marker, as the data model allows), yet
`validate_fields` raises on its null `policyInformation` section and
`route_claim` raises lower-casing its null description.  So the two
functions are not total on all well-formed sparse records. -/
theorem claimC1_counterexample :
    wellFormed recNullMarkers = true ∧
    (validate_fields recNullMarkers).isOk = false ∧
    (route_claim recNullMarkers []).isOk = false :=
  ⟨rfl, rfl, rfl⟩

/-- C1, amended: `validate_fields` and `route_claim` never raise on a
well-formed record provided null does not stand for absence on the parent
sections the `.get` chains traverse, nor on the `description` and
`claimType` leaves that are lower-cased; such fields may still be absent,
and every other leaf may still be null. -/
theorem claimC1_amended {r : PyVal} (hwf : wellFormed r = true)
    (hnn : noNullAccess r = true) :
    (validate_fields r).isOk = true ∧ ∀ ms, (route_claim r ms).isOk = true := by
  refine ⟨?_, fun ms => route_claim_total hwf hnn ms⟩
  have hnp : noNullParents r = true := by
    simp only [noNullAccess, Bool.and_eq_true] at hnn
    exact hnn.1
  rw [validate_fields_spec hwf hnp]
  rfl

/-- C1, witness: the amended totality applied to the complete test-fixture
record. -/
theorem claimC1_witness :
    wellFormed recComplete = true ∧ noNullAccess recComplete = true ∧
    ((validate_fields recComplete).isOk = true ∧
      ∀ ms, (route_claim recComplete ms).isOk = true) :=
  ⟨rfl, rfl, claimC1_amended rfl rfl⟩

theorem isOk_exists {α : Type} {e : Except String α} (h : e.isOk = true) :
    ∃ a, e = .ok a := by
  cases e with
  | error err => simp [Except.isOk, Except.toBool] at h
  | ok a => exact ⟨a, rfl⟩

/-- C2, amended: a record with empty missing-field list, no fraud keyword,
no injury claim type and a resolved damage amount of exactly 0 routes to
manual-review, not fast-track: the ladder condition
`damage_amount and damage_amount < 25000` treats the number 0 as falsy, so
branch 4 is skipped and the final else fires. -/
theorem claimC2_amended {r : PyVal} {desc ct : String} {ed ie : PyVal}
    (h1 : descriptionOf r = .ok desc) (h2 : claimTypeOf r = .ok ct)
    (h3 : estimatedDamageOf r = .ok ed) (h4 : initialEstimateOf r = .ok ie)
    (hf : fraud_keywords.filter (fun w => strContains desc w) = [])
    (hct : strContains ct "injury" = false)
    (hq : pyOr (pyOr ed ie) (.num 0) = .num 0) :
    Except.map RoutingDecision.recommendedRoute (route_claim r []) = .ok "manual-review" := by
  rw [route_claim_eq h1 h2 h3 h4]
  simp [routeCore, hf, hct, hq, PyVal.truthy, Except.map]

/-- C2, counterexample: `recZeroDamage` satisfies every condition of the
claim (no missing fields are passed, no fraud keyword, claim type "auto",
resolved damage exactly 0), yet `route_claim` returns manual-review, not
the claimed fast-track. -/
theorem claimC2_counterexample :
    descriptionOf recZeroDamage = .ok "rear-end collision at intersection" ∧
    fraud_keywords.filter (fun w => strContains "rear-end collision at intersection" w) = [] ∧
    claimTypeOf recZeroDamage = .ok "auto" ∧
    strContains "auto" "injury" = false ∧
    Except.map RoutingDecision.estimatedDamage (route_claim recZeroDamage []) = .ok (.num 0) ∧
    Except.map RoutingDecision.recommendedRoute (route_claim recZeroDamage []) = .ok "manual-review" ∧
    "manual-review" ≠ "fast-track" :=
  ⟨rfl, rfl, rfl, rfl, rfl, rfl, by decide⟩

/-- C2, witness: the amended routing applied to `recZeroDamage`. -/
theorem claimC2_witness :
    descriptionOf recZeroDamage = .ok "rear-end collision at intersection" ∧
    fraud_keywords.filter (fun w => strContains "rear-end collision at intersection" w) = [] ∧
    strContains "auto" "injury" = false ∧
    pyOr (pyOr PyVal.null PyVal.null) (.num 0) = .num 0 ∧
    Except.map RoutingDecision.recommendedRoute (route_claim recZeroDamage []) = .ok "manual-review" :=
  ⟨rfl, rfl, rfl, rfl, claimC2_amended rfl rfl rfl rfl rfl rfl rfl⟩

/-- C3, counterexample: in `recZeroEstimate` the preferred field
`asset.estimatedDamage` is present and non-null with value 0, yet the
resolved damage amount is the fallback `initialEstimate` 5000, not 0: the
`or`-chain falls back on any falsy value, not only on null/absent. -/
theorem claimC3_counterexample :
    estimatedDamageOf recZeroEstimate = .ok (.num 0) ∧
    initialEstimateOf recZeroEstimate = .ok (.num 5000) ∧
    Except.map RoutingDecision.estimatedDamage (route_claim recZeroEstimate []) = .ok (.num 5000) ∧
    (5000 : Rat) ≠ 0 :=
  ⟨rfl, rfl, rfl, by decide⟩

/-- C3, amended: the resolved damage amount is the `or`-chain over the two
estimates with final fallback 0: it equals `asset.estimatedDamage` when
that value is truthy (present, non-null and non-zero), and falls back to
`other.initialEstimate` (then to 0) whenever the preferred value is falsy —
null, absent, or the number 0. -/
theorem claimC3_amended {r : PyVal} {ms : List String} {ed ie : PyVal}
    (hok : (route_claim r ms).isOk = true)
    (h3 : estimatedDamageOf r = .ok ed) (h4 : initialEstimateOf r = .ok ie) :
    Except.map RoutingDecision.estimatedDamage (route_claim r ms) =
      .ok (pyOr (pyOr ed ie) (.num 0)) ∧
    (ed.truthy = true →
      Except.map RoutingDecision.estimatedDamage (route_claim r ms) = .ok ed) ∧
    (ed.truthy = false → ie.truthy = true →
      Except.map RoutingDecision.estimatedDamage (route_claim r ms) = .ok ie) ∧
    (ed.truthy = false → ie.truthy = false →
      Except.map RoutingDecision.estimatedDamage (route_claim r ms) = .ok (.num 0)) := by
  obtain ⟨d, hE⟩ := isOk_exists hok
  obtain ⟨desc, ct, ed2, ie2, hh1, hh2, hh3, hh4, hcore⟩ := route_claim_ok_inv hE
  rw [h3] at hh3
  rw [h4] at hh4
  injection hh3 with e3
  injection hh4 with e4
  subst e3
  subst e4
  obtain ⟨-, -, hdm, -⟩ := routeCore_fields hcore
  rw [hE, map_ok, hdm]
  refine ⟨rfl, ?_, ?_, ?_⟩
  · intro hT
    simp [pyOr, hT]
  · intro hF hT
    simp [pyOr, hF, hT]
  · intro hF hG
    simp [pyOr, hF, hG]

/-- C3, witness: the amended fallback rule applied to `recZeroEstimate`,
whose preferred estimate is the falsy 0 and whose fallback is 5000. -/
theorem claimC3_witness :
    (route_claim recZeroEstimate []).isOk = true ∧
    estimatedDamageOf recZeroEstimate = .ok (.num 0) ∧
    initialEstimateOf recZeroEstimate = .ok (.num 5000) ∧
    Except.map RoutingDecision.estimatedDamage (route_claim recZeroEstimate []) =
      .ok (pyOr (pyOr (.num 0) (.num 5000)) (.num 0)) :=
  ⟨rfl, rfl, rfl, (@claimC3_amended recZeroEstimate [] (.num 0) (.num 5000) rfl rfl rfl).1⟩

/-- C4, counterexample: in `recWhitespace` the `policyNumber` source value
is the whitespace-only string " ", which the claim counts as missing, but
`validate_fields` does not return the `policyNumber` token: a
whitespace-only string is truthy in Python, so only absent/null/empty
values are flagged. -/
theorem claimC4_counterexample :
    fieldValue recWhitespace "policyNumber" = .str " " ∧
    specMissingOrig (.str " ") = true ∧
    validate_fields recWhitespace =
      .ok ["policyholderName", "incidentDate", "incidentLocation", "description",
           "claimantName", "assetType", "claimType"] ∧
    missingSpecOrig recWhitespace = mandatory_fields ∧
    ¬ "policyNumber" ∈ ["policyholderName", "incidentDate", "incidentLocation", "description",
           "claimantName", "assetType", "claimType"] :=
  ⟨rfl, rfl, rfl, rfl, by decide⟩

/-- C4, amended: on every well-formed record whose parent sections are not
present-with-null, `validate_fields` returns exactly the fixed-vocabulary
tokens whose source value is absent, null, or the empty string (a
whitespace-only string counts as present), always in the fixed check
order. -/
theorem claimC4_amended {r : PyVal} (hwf : wellFormed r = true)
    (hnp : noNullParents r = true) :
    validate_fields r = .ok (missingSpec r) ∧
    List.Sublist (missingSpec r) mandatory_fields :=
  ⟨validate_fields_spec hwf hnp,
   by simp only [missingSpec]; exact List.filter_sublist mandatory_fields⟩

/-- C4, witness: the amended validator contract applied to
`recWhitespace`. -/
theorem claimC4_witness :
    wellFormed recWhitespace = true ∧ noNullParents recWhitespace = true ∧
    (validate_fields recWhitespace = .ok (missingSpec recWhitespace) ∧
      List.Sublist (missingSpec recWhitespace) mandatory_fields) :=
  ⟨rfl, rfl, claimC4_amended rfl rfl⟩

/-- C5: whenever the lower-cased description contains at least one fraud
keyword, `route_claim` routes to investigation regardless of the
missing-field list, the claim type or the damage amount, with reasoning
naming the matched keywords comma-joined in vocabulary order (the
`fraudIndicators` list it also returns). -/
theorem claimC5 {r : PyVal} {ms : List String} {desc ct : String} {ed ie : PyVal}
    (h1 : descriptionOf r = .ok desc) (h2 : claimTypeOf r = .ok ct)
    (h3 : estimatedDamageOf r = .ok ed) (h4 : initialEstimateOf r = .ok ie)
    (hkw : ∃ w ∈ fraud_keywords, strContains desc w = true) :
    Except.map (fun d => (d.recommendedRoute, d.reasoning, d.fraudIndicators)) (route_claim r ms) =
      .ok ("investigation",
        "Fraud indicators detected: " ++
          String.intercalate ", " (fraud_keywords.filter (fun w => strContains desc w)),
        fraud_keywords.filter (fun w => strContains desc w)) := by
  rw [route_claim_eq h1 h2 h3 h4]
  have hne := filter_ne_nil_of_exists hkw
  simp [routeCore, hne, Except.map]

/-- C6: with no fraud keywords, no missing fields and no injury claim
type, the threshold is a strict less-than: a resolved damage amount of
24999.99 routes to fast-track while exactly 25000 routes to
manual-review. -/
theorem claimC6 {r : PyVal} {desc ct : String} {ed ie : PyVal}
    (h1 : descriptionOf r = .ok desc) (h2 : claimTypeOf r = .ok ct)
    (h3 : estimatedDamageOf r = .ok ed) (h4 : initialEstimateOf r = .ok ie)
    (hf : fraud_keywords.filter (fun w => strContains desc w) = [])
    (hct : strContains ct "injury" = false) :
    (pyOr (pyOr ed ie) (.num 0) = .num (mkRat 2499999 100) →
      Except.map RoutingDecision.recommendedRoute (route_claim r []) = .ok "fast-track") ∧
    (pyOr (pyOr ed ie) (.num 0) = .num 25000 →
      Except.map RoutingDecision.recommendedRoute (route_claim r []) = .ok "manual-review") := by
  have hne : (mkRat 2499999 100 : Rat) ≠ 0 := by decide
  have hlt : (mkRat 2499999 100 : Rat) < 25000 := by decide
  have hne25 : (25000 : Rat) ≠ 0 := by decide
  have hnlt : ¬ ((25000 : Rat) < 25000) := by decide
  constructor <;> intro hq <;> rw [route_claim_eq h1 h2 h3 h4] <;>
    simp [routeCore, hf, hct, hq, PyVal.truthy, hne, hlt, hne25, hnlt, Except.map]

/-- C7: with no fraud keywords and an empty missing-field list, a
lower-cased claim type containing "injury" routes to specialist-queue with
the fixed reasoning string, for every damage amount (the injury branch
precedes the damage-threshold branch). -/
theorem claimC7 {r : PyVal} {desc ct : String} {ed ie : PyVal}
    (h1 : descriptionOf r = .ok desc) (h2 : claimTypeOf r = .ok ct)
    (h3 : estimatedDamageOf r = .ok ed) (h4 : initialEstimateOf r = .ok ie)
    (hf : fraud_keywords.filter (fun w => strContains desc w) = [])
    (hct : strContains ct "injury" = true) :
    Except.map (fun d => (d.recommendedRoute, d.reasoning)) (route_claim r []) =
      .ok ("specialist-queue", "Claim involves injury - requires specialist review") := by
  rw [route_claim_eq h1 h2 h3 h4]
  simp [routeCore, hf, hct, Except.map]

/-- C10: with no fraud keywords, an empty missing-field list and no
injury claim type, any resolved numeric damage amount that is non-zero and
strictly below 25000 — negative amounts included — routes to fast-track:
there is no lower bound check. -/
theorem claimC10 {r : PyVal} {desc ct : String} {ed ie : PyVal} {n : Rat}
    (h1 : descriptionOf r = .ok desc) (h2 : claimTypeOf r = .ok ct)
    (h3 : estimatedDamageOf r = .ok ed) (h4 : initialEstimateOf r = .ok ie)
    (hf : fraud_keywords.filter (fun w => strContains desc w) = [])
    (hct : strContains ct "injury" = false)
    (hq : pyOr (pyOr ed ie) (.num 0) = .num n) (hn0 : n ≠ 0) (hlt : n < 25000) :
    Except.map RoutingDecision.recommendedRoute (route_claim r []) = .ok "fast-track" := by
  rw [route_claim_eq h1 h2 h3 h4]
  simp [routeCore, hf, hct, hq, PyVal.truthy, hn0, hlt, Except.map]

/-- C8: the `fraudIndicators` of every returned decision is exactly the
filter of the fixed 5-keyword vocabulary by substring containment in the
lower-cased description: an ordered sub-sequence of the vocabulary whose
every member occurs in the description, never a keyword absent from it. -/
theorem claimC8 {r : PyVal} {ms : List String} {desc : String}
    (hok : (route_claim r ms).isOk = true) (hdesc : descriptionOf r = .ok desc) :
    Except.map RoutingDecision.fraudIndicators (route_claim r ms) =
      .ok (fraud_keywords.filter (fun w => strContains desc w)) ∧
    List.Sublist (fraud_keywords.filter (fun w => strContains desc w)) fraud_keywords ∧
    ∀ w ∈ fraud_keywords.filter (fun w => strContains desc w), strContains desc w = true := by
  obtain ⟨d, hE⟩ := isOk_exists hok
  obtain ⟨desc2, ct, ed, ie, hh1, hh2, hh3, hh4, hcore⟩ := route_claim_ok_inv hE
  rw [hdesc] at hh1
  injection hh1 with e1
  subst e1
  obtain ⟨-, hfi, -, -⟩ := routeCore_fields hcore
  refine ⟨by rw [hE, map_ok, hfi], List.filter_sublist _, ?_⟩
  intro w hw
  exact (List.mem_filter.mp hw).2

/-- C9: every returned decision routes to one of exactly the four fixed
route names; the batch tally is statically initialized with all four keys
at zero, so incrementing any tally that covers those keys by the returned
route never raises a key error. -/
theorem claimC9 {r : PyVal} {ms : List String} {tally : List (String × Nat)}
    (hok : (route_claim r ms).isOk = true)
    (hkeys : ∀ k, (initialRoutes.lookup k).isSome = true → (tally.lookup k).isSome = true) :
    ∃ rt, Except.map RoutingDecision.recommendedRoute (route_claim r ms) = .ok rt ∧
      rt ∈ ["fast-track", "manual-review", "specialist-queue", "investigation"] ∧
      initialRoutes.lookup rt = some 0 ∧
      (bumpRoute tally rt).isOk = true := by
  obtain ⟨d, hE⟩ := isOk_exists hok
  obtain ⟨desc, ct, ed, ie, hh1, hh2, hh3, hh4, hcore⟩ := route_claim_ok_inv hE
  obtain ⟨-, -, -, hmem⟩ := routeCore_fields hcore
  have hcases : d.recommendedRoute = "fast-track" ∨ d.recommendedRoute = "manual-review" ∨
      d.recommendedRoute = "specialist-queue" ∨ d.recommendedRoute = "investigation" := by
    simpa using hmem
  have hinit : initialRoutes.lookup d.recommendedRoute = some 0 := by
    rcases hcases with h | h | h | h <;> rw [h] <;> rfl
  have hsome : (tally.lookup d.recommendedRoute).isSome = true := by
    apply hkeys
    rw [hinit]
    rfl
  refine ⟨d.recommendedRoute, by rw [hE, map_ok], hmem, hinit, ?_⟩
  simp [bumpRoute, hsome, Except.isOk, Except.toBool]

/-- C5, witness: the fraud branch on a record whose description matches
"staged" and "inconsistent". -/
theorem claimC5_witness :
    descriptionOf recFraud = .ok "this seems like a staged accident with inconsistent details" ∧
    (∃ w ∈ fraud_keywords,
      strContains "this seems like a staged accident with inconsistent details" w = true) ∧
    Except.map (fun d => (d.recommendedRoute, d.reasoning, d.fraudIndicators))
        (route_claim recFraud []) =
      .ok ("investigation", "Fraud indicators detected: staged, inconsistent",
        ["staged", "inconsistent"]) :=
  ⟨rfl, by decide,
   @claimC5 recFraud [] "this seems like a staged accident with inconsistent details" "auto" (.num 15000) (.num 15000) rfl rfl rfl rfl (by decide)⟩

/-- C6, witness: the strict threshold at 24999.99 and at exactly 25000. -/
theorem claimC6_witness :
    (descriptionOf recBelowThreshold = .ok "minor collision" ∧
      fraud_keywords.filter (fun w => strContains "minor collision" w) = [] ∧
      claimTypeOf recBelowThreshold = .ok "auto" ∧
      strContains "auto" "injury" = false ∧
      pyOr (pyOr (.num (mkRat 2499999 100)) .null) (.num 0) = .num (mkRat 2499999 100) ∧
      Except.map RoutingDecision.recommendedRoute (route_claim recBelowThreshold []) =
        .ok "fast-track") ∧
    (pyOr (pyOr (.num 25000) .null) (.num 0) = .num 25000 ∧
      Except.map RoutingDecision.recommendedRoute (route_claim recAtThreshold []) =
        .ok "manual-review") :=
  ⟨⟨rfl, rfl, rfl, rfl, rfl,
    (claimC6 (r := recBelowThreshold) rfl rfl rfl rfl rfl rfl).1 rfl⟩,
   ⟨rfl, (claimC6 (r := recAtThreshold) rfl rfl rfl rfl rfl rfl).2 rfl⟩⟩

/-- C7, witness: the injury branch on an injury claim with fast-track-sized
damage. -/
theorem claimC7_witness :
    descriptionOf recInjury = .ok "minor collision" ∧
    fraud_keywords.filter (fun w => strContains "minor collision" w) = [] ∧
    claimTypeOf recInjury = .ok "injury" ∧
    strContains "injury" "injury" = true ∧
    Except.map (fun d => (d.recommendedRoute, d.reasoning)) (route_claim recInjury []) =
      .ok ("specialist-queue", "Claim involves injury - requires specialist review") :=
  ⟨rfl, rfl, rfl, rfl, claimC7 (r := recInjury) rfl rfl rfl rfl rfl rfl⟩

/-- C8, witness: the fraud-indicator round trip on the fraud record. -/
theorem claimC8_witness :
    (route_claim recFraud []).isOk = true ∧
    descriptionOf recFraud = .ok "this seems like a staged accident with inconsistent details" ∧
    (Except.map RoutingDecision.fraudIndicators (route_claim recFraud []) =
        .ok (fraud_keywords.filter
          (fun w => strContains "this seems like a staged accident with inconsistent details" w)) ∧
      List.Sublist (fraud_keywords.filter
          (fun w => strContains "this seems like a staged accident with inconsistent details" w))
        fraud_keywords ∧
      ∀ w ∈ fraud_keywords.filter
          (fun w => strContains "this seems like a staged accident with inconsistent details" w),
        strContains "this seems like a staged accident with inconsistent details" w = true) :=
  ⟨rfl, rfl, @claimC8 recFraud [] "this seems like a staged accident with inconsistent details" rfl rfl⟩

/-- C9, witness: routing and the zero-initialized tally on the complete
fixture record. -/
theorem claimC9_witness :
    (route_claim recComplete []).isOk = true ∧
    (∃ rt, Except.map RoutingDecision.recommendedRoute (route_claim recComplete []) = .ok rt ∧
      rt ∈ ["fast-track", "manual-review", "specialist-queue", "investigation"] ∧
      initialRoutes.lookup rt = some 0 ∧
      (bumpRoute initialRoutes rt).isOk = true) :=
  ⟨rfl, @claimC9 recComplete [] initialRoutes rfl (fun _ h => h)⟩

/-- C10, witness: a negative damage estimate routes to fast-track. -/
theorem claimC10_witness :
    descriptionOf recNegative = .ok "minor collision" ∧
    fraud_keywords.filter (fun w => strContains "minor collision" w) = [] ∧
    claimTypeOf recNegative = .ok "auto" ∧
    strContains "auto" "injury" = false ∧
    pyOr (pyOr (.num (-500)) .null) (.num 0) = .num (-500) ∧
    (-500 : Rat) ≠ 0 ∧
    (-500 : Rat) < 25000 ∧
    Except.map RoutingDecision.recommendedRoute (route_claim recNegative []) = .ok "fast-track" :=
  ⟨rfl, rfl, rfl, rfl, rfl, by decide, by decide,
   claimC10 (r := recNegative) rfl rfl rfl rfl rfl rfl rfl (by decide) (by decide)⟩
